import Mathlib

/-!
Verification of the FanslyStreamRecorder repository against its
natural-language specification.  Each Python function relevant to the
frozen claims is shallowly embedded as a Lean definition: pure logic is
translated directly, file-system state and external-process behaviour
are passed explicitly, byte counts are natural numbers and the
gigabyte-valued floating point arithmetic of the source is modelled
over the rationals.
-/

namespace FSR

/-- Bytes in one gigabyte, `1024 * 1024 * 1024` as in the source. -/
def gb : Nat := 1024 * 1024 * 1024

/-- Rational image of `gb`, used where the source divides byte counts by
`1024 * 1024 * 1024` in floating point. -/
def gbQ : ℚ := (gb : ℚ)

/-- Structural test that the first character list starts the second,
used to express the Python string predicates by kernel-reducible
recursion. -/
def leadsChars : List Char → List Char → Bool
  | [], _ => true
  | _ :: _, [] => false
  | a :: as, b :: bs => a == b && leadsChars as bs

/-- Python `str.endswith(post)` / the suffix match of a `*<ext>` glob
pattern. -/
def strEndsWith (s post : String) : Bool :=
  leadsChars post.data.reverse s.data.reverse

/-- Python `pat in s`: substring containment. -/
def strContains (s pat : String) : Bool :=
  go pat.data s.data
where
  go (pat : List Char) : List Char → Bool
    | [] => pat.isEmpty
    | c :: rest => leadsChars pat (c :: rest) || go pat rest

/-- Python `str.lower()`, character-wise. -/
def lowerStr (s : String) : String :=
  ⟨s.data.map Char.toLower⟩

/-- Everything before the last dot of the string, or the string itself
when it has no dot: Python `s.rsplit(".", 1)[0]`, and `Path.stem` when
applied to a file name. -/
def beforeLastDot (s : String) : String :=
  match s.data.reverse.dropWhile (fun c => !(c == '.')) with
  | [] => s
  | _ :: rest => ⟨rest.reverse⟩

/-- Configuration model of `config.py`: exactly the fields declared on the
pydantic `Config` class.  Note that there is no `protected_users` field. -/
structure Config where
  output_directory : String
  users_to_monitor : List String
  check_interval : Nat
  generate_thumbnail : Bool
  compress_videos : Bool
  delete_original : Bool
  delete_split_video_after_upload : Bool
  upload_videos : Bool
  remove_old_recordings : Bool
  min_free_disk_space : ℚ
  discord_enable : Bool
  discord_channel_id : String
  dev_mode : Bool
deriving Repr, DecidableEq

/-- Attribute lookup `CONFIG.protected_users` performed by
`cleanup.py` line 65.  The pydantic `Config` model in `config.py`
declares no `protected_users` field (and pydantic ignores unknown keys
from the yaml file), so the attribute access raises `AttributeError` at
run time; the lookup is therefore modelled as `none`. -/
def Config.protectedUsersAttr (_ : Config) : Option (List String) := none

namespace Cleanup

/-- A file on disk, located relative to the output directory:
`relDir` is the chain of sub-directory names (empty means the file sits
directly in the output directory), `name` its file name. -/
structure Entry where
  relDir : List String
  name : String
  ctime : Nat
  size : Nat
deriving Repr, DecidableEq

/-- The video extensions enumerated by `cleanup.py` line 40. -/
def videoExts : List String := [".mp4", ".mkv", ".avi", ".mov"]

/-- Python `Path.stem`: the file name with its last suffix removed. -/
def stemOf (s : String) : String :=
  beforeLastDot s

/-- Candidate enumeration of `cleanup.py` lines 39-41:
`Path(output_dir).glob("*" + ext)` for each extension.  `glob` with the
pattern `*<ext>` is not recursive: it matches only files directly inside
`output_dir`, so only entries with an empty `relDir` are collected.  The
lists are concatenated per extension, as in the source loop. -/
def globCandidates (files : List Entry) : List Entry :=
  videoExts.foldl
    (fun acc ext =>
      acc ++ files.filter (fun f => f.relDir.isEmpty && strEndsWith f.name ext)) []

/-- Stable sort of the candidate list by creation time, oldest first,
modelling `video_files.sort(key=lambda x: os.path.getctime(x))`. -/
def insertByCtime (f : Entry) : List Entry → List Entry
  | [] => [f]
  | g :: rest =>
    if f.ctime < g.ctime then f :: g :: rest else g :: insertByCtime f rest

/-- Insertion sort by `ctime`; stable, like Python list sort. -/
def sortByCtime : List Entry → List Entry
  | [] => []
  | f :: rest => insertByCtime f (sortByCtime rest)

/-- The protected-user test of `cleanup.py` lines 64-70: some configured
identifier is a case-insensitive substring of the file stem. -/
def isProtectedIn (prot : List String) (f : Entry) : Bool :=
  prot.any (fun u => strContains (lowerStr (stemOf f.name)) (lowerStr u))

/-- Outcome of the deletion loop: the files removed (in removal order),
total bytes freed, number of protected files skipped, and whether an
exception escaped the loop to the outer handler. -/
structure LoopOut where
  removed : List Entry
  bytesFreed : Nat
  protectedSkipped : Nat
  raised : Bool
deriving Repr, DecidableEq

/-- The deletion loop of `cleanup.py` lines 59-98.  For each candidate
the code first iterates `CONFIG.protected_users`; since that attribute
lookup fails (`prot = none`), the first loop iteration raises and
nothing is removed.  Were the attribute present (`prot = some ps`),
protected files are skipped, other files are removed together with their
thumbnail sidecar, `bytes_freed` accumulates the video file size, and
the loop stops once `bytes_freed / 2^30 >= to_free_gb`.  `os.remove` is
modelled as succeeding. -/
def cleanupLoop (prot : Option (List String)) (toFreeGb : ℚ) :
    Nat → Nat → List Entry → LoopOut
  | bytesFreed, skipped, [] => ⟨[], bytesFreed, skipped, false⟩
  | bytesFreed, skipped, f :: rest =>
    match prot with
    | none => ⟨[], bytesFreed, skipped, true⟩
    | some ps =>
      if isProtectedIn ps f then
        let o := cleanupLoop prot toFreeGb bytesFreed (skipped + 1) rest
        o
      else
        let bf := bytesFreed + f.size
        if toFreeGb ≤ (bf : ℚ) / gbQ then
          ⟨[f], bf, skipped, false⟩
        else
          let o := cleanupLoop prot toFreeGb bf skipped rest
          ⟨f :: o.removed, o.bytesFreed, o.protectedSkipped, o.raised⟩

/-- Result of one retention pass: which files were removed and whether
the pass was cut short by an exception caught by the outer handler. -/
structure CleanupRun where
  removed : List Entry
  aborted : Bool
deriving Repr, DecidableEq

/-- Embedding of `check_disk_space_and_cleanup` (`cleanup.py` lines
8-115).  `files` is the content of the output directory, `freeBytes`
the free space reported by `shutil.disk_usage`, `minFreeGb` the
threshold parameter.  The whole body runs under a `try` whose handler
only logs, so an exception raised inside the deletion loop leaves the
removals performed so far in place and aborts the rest. -/
def check_disk_space_and_cleanup (cfg : Config) (dirExists : Bool)
    (files : List Entry) (freeBytes : Nat) (minFreeGb : ℚ) : CleanupRun :=
  if !dirExists then ⟨[], false⟩
  else
    let freeGb : ℚ := (freeBytes : ℚ) / gbQ
    if freeGb < minFreeGb then
      let vids := globCandidates files
      if vids.isEmpty then ⟨[], false⟩
      else
        let sorted := sortByCtime vids
        let toFree := minFreeGb - freeGb
        let o := cleanupLoop cfg.protectedUsersAttr toFree 0 0 sorted
        ⟨o.removed, o.raised⟩
    else ⟨[], false⟩

end Cleanup

namespace Monitor

/-- The mutable fields of `UserMonitor` relevant to the polling loop:
`is_recording` and `_running` (`monitor.py` lines 23 and 27). -/
structure MonitorState where
  isRecording : Bool
  running : Bool
deriving Repr, DecidableEq

/-- What the environment delivers to one iteration of
`start_monitoring`: the iteration is cancelled at one of its awaits, or
some exception is raised in the body, or the live-status query returns
stream data (`access` flag and optional playback url). -/
inductive PollEvent where
  | cancelled
  | failure
  | stream (access : Bool) (playbackUrl : Option String)
deriving Repr, DecidableEq

/-- Externally visible actions of one loop iteration. -/
inductive MAction where
  | sleep
  | query
  | launch
deriving Repr, DecidableEq

/-- Environment of one `start_recording` call: whether
`subprocess.Popen` succeeds. -/
structure RecEnv where
  launchOk : Bool
deriving Repr, DecidableEq

/-- Result of a `start_recording` call: the updated monitor state and
whether an external recording process was launched. -/
structure RecResult where
  state : MonitorState
  launched : Bool
deriving Repr, DecidableEq

/-- Embedding of `UserMonitor.start_recording` (`monitor.py` lines
80-140) up to the point the recording process is launched and
`is_recording` is set.  The guard at lines 81-82 returns immediately
when `is_recording` is already true.  On a launch failure the exception
handler at lines 138-140 leaves `is_recording` false. -/
def start_recording (s : MonitorState) (env : RecEnv) : RecResult :=
  if s.isRecording then ⟨s, false⟩
  else if env.launchOk then ⟨{ s with isRecording := true }, true⟩
  else ⟨{ s with isRecording := false }, false⟩

/-- Outcome of one pass over the `while self._running` loop of
`start_monitoring`: either the loop terminated, or it proceeds to the
next iteration with the given state. -/
inductive StepOutcome where
  | exited (s : MonitorState)
  | looped (s : MonitorState)
deriving Repr, DecidableEq

/-- One iteration of `UserMonitor.start_monitoring` (`monitor.py` lines
60-78).  The `_running` flag is observed at the top; when false the
loop exits.  If `is_recording` is true the body only sleeps one poll
interval and re-checks.  Otherwise the live status is queried; on live
access with a playback url, `start_recording` runs, then the body
sleeps.  `asyncio.CancelledError` is handled by `await self.stop()`
followed by `break`; every other exception is printed and the loop
continues with the state unchanged (and without reaching the sleep). -/
def loopStep (s : MonitorState) (ev : PollEvent) (env : RecEnv) :
    StepOutcome × List MAction :=
  if s.running = false then (.exited s, [])
  else
    match ev with
    | .cancelled => (.exited { s with running := false }, [])
    | .failure =>
      if s.isRecording then (.looped s, [.sleep]) else (.looped s, [.query])
    | .stream access url =>
      if s.isRecording then (.looped s, [.sleep])
      else if access && url.isSome then
        let r := start_recording s env
        (.looped r.state,
          [.query] ++ (if r.launched then [.launch] else []) ++ [.sleep])
      else
        (.looped s, [.query, .sleep])

end Monitor

namespace Video

/-- The compressed output path of `compress_video` (`video.py` line
69): `input_path.rsplit(".", 1)[0] + "_compressed.mp4"`. -/
def compressedPathOf (input : String) : String :=
  beforeLastDot input ++ "_compressed.mp4"

/-- Environment of one `compress_video` call: the relevant file-system
facts at entry and the behaviour of the external encoder run. -/
structure CompressEnv where
  inputExists : Bool
  compressedExists : Bool
  encoderExit : Int
  encoderCreatesOutput : Bool
  encoderRaises : Bool
deriving Repr, DecidableEq

/-- Result of a `compress_video` call: the returned path, whether the
external encoder was invoked, and whether the original file was
deleted. -/
structure CompressOut where
  path : String
  ranEncoder : Bool
  deletedOriginal : Bool
deriving Repr, DecidableEq

/-- Embedding of `compress_video` (`video.py` lines 61-138).  A
pre-existing compressed output is returned immediately (line 73); a
missing input returns the input path (line 77); otherwise the encoder
runs under a `try`: any exception is caught and the input path is
returned; on exit code 0 with the output present the compressed path is
returned and, when `delete_original` is configured, the original is
removed (`os.remove` modelled as succeeding; a failure there is caught
and does not change the returned path); on a nonzero exit or missing
output the input path is returned.  Every branch returns a value, so
the call never raises. -/
def compress_video (deleteOriginal : Bool) (inputPath : String)
    (env : CompressEnv) : CompressOut :=
  if env.compressedExists then ⟨compressedPathOf inputPath, false, false⟩
  else if !env.inputExists then ⟨inputPath, false, false⟩
  else if env.encoderRaises then ⟨inputPath, true, false⟩
  else if env.encoderExit = 0 && env.encoderCreatesOutput then
    ⟨compressedPathOf inputPath, true, deleteOriginal⟩
  else ⟨inputPath, true, false⟩

/-- File-system state for the split stage: the set of existing files
and directories, and each file's size in bytes. -/
structure SplitFS where
  files : List String
  dirs : List String
  sizeOf : String → Nat

/-- Name of the i-th split part (`video.py` lines 164 and 192):
`<stem>_part<i+1><suffix>`. -/
def partName (stem suffix : String) (i : Nat) : String :=
  stem ++ "_part" ++ toString (i + 1) ++ suffix

/-- Result of a `split_video_by_size` call: the returned part list (or
the raised error), the number of external `ffmpeg` split invocations,
and the file system afterwards. -/
structure SplitOut where
  result : Except String (List String)
  ffmpegRuns : Nat
  fs : SplitFS

/-- Embedding of `split_video_by_size` (`video.py` lines 141-210).  The
input video is `parent/stem<suffix>`.  A missing input raises
`FileNotFoundError`.  The number of segments is
`ceil(file_size_gb / max_size_gb)`.  If the chunks directory and the
complete identically-named part set already exist, that part list is
returned with no external invocation (lines 163-166).  Otherwise the
directory is created and `ffmpeg` is run once per segment (modelled as
succeeding and creating each part file), and the same ordered part list
is returned. -/
def split_video_by_size (fs : SplitFS) (parent stem suffix : String)
    (maxSizeGb : ℚ) : SplitOut :=
  let videoPath := parent ++ "/" ++ stem ++ suffix
  if videoPath ∉ fs.files then ⟨.error "FileNotFoundError", 0, fs⟩
  else
    let sizeGb : ℚ := (fs.sizeOf videoPath : ℚ) / gbQ
    let n : Nat := ⌈sizeGb / maxSizeGb⌉₊
    let outDir := parent ++ "/" ++ stem ++ "_chunks"
    let expected :=
      (List.range n).map (fun i => outDir ++ "/" ++ partName stem suffix i)
    if outDir ∈ fs.dirs ∧ ∀ p ∈ expected, p ∈ fs.files then
      ⟨.ok expected, 0, fs⟩
    else
      ⟨.ok expected, n,
        { fs with dirs := outDir :: fs.dirs, files := expected ++ fs.files }⟩

end Video

namespace Upload

/-- The result dictionary built by `upload.py` line 26, together with
the `error` key optionally added by the exception handler at line 87. -/
structure UploadResult where
  success : Bool
  url : Option String
  multiple : Bool
  urls : List String
  error : Option String
deriving Repr, DecidableEq

/-- The initial `result` value of `upload.py` line 26:
`{"success": False, "url": None, "multiple": False, "urls": []}`. -/
def defaultResult : UploadResult :=
  { success := false, url := none, multiple := false, urls := [], error := none }

/-- The attributes `BunkrUploader.__init__` (`bunkr.py` lines 93-132)
actually assigns on the instance (besides `headers`, `verify`, `check`
and `node`, which are response dictionaries). -/
structure BunkrUploaderState where
  chunk_size : Nat
  silent : Bool
  upload_url : String
deriving Repr, DecidableEq

/-- Attribute lookup `uploader.max_file_size` performed by `upload.py`
lines 56-57.  No method of `BunkrUploader` ever assigns a
`max_file_size` attribute (the class only defines `MAX_RETRIES`), so
the access raises `AttributeError`; the lookup is modelled as `none`. -/
def BunkrUploaderState.maxFileSizeAttr (_ : BunkrUploaderState) : Option Nat :=
  none

/-- Externally visible actions of an `upload_file` call. -/
inductive UAction where
  | initNetwork
  | uploadNetwork (path : String)
  | splitRun (path : String)
  | removeFile (path : String)
deriving Repr, DecidableEq

/-- Urls collected by `BunkrUploader.upload_files` (`bunkr.py` lines
443-463): `as_completed` yields the per-part futures in completion
order `order` (each entry an index into `outcomes`); a future whose
result is a url appends it, a `None` result or an exception appends
nothing. -/
def uploadFilesCollect (outcomes : List (Option String)) (order : List Nat) :
    List String :=
  (order.map (fun i => outcomes.getD i none)).filterMap id

/-- Completion orders the thread pool of `upload_files` can produce for
`n` submitted parts.  `batch_size` is clamped to at least 1 (`bunkr.py`
lines 440-441) and bounds `max_workers`; with a single worker the pool
executes the submissions one at a time in submission order, so the
futures complete in index order; with more workers any permutation of
the indices may be observed by `as_completed`. -/
def achievableOrder (workers n : Nat) (order : List Nat) : Bool :=
  if workers ≤ 1 then order == List.range n
  else decide (order.Perm (List.range n))

/-- Embedding of `BunkrUploader.upload_files` (`bunkr.py` lines
428-463): the returned url list is `uploadFilesCollect` over the
completion order; the `batchSize` argument only bounds the worker
count, which constrains `order` through `achievableOrder`. -/
def upload_files (batchSize : Nat) (outcomes : List (Option String))
    (order : List Nat) : List String :=
  let _ := batchSize
  uploadFilesCollect outcomes order

/-- Embedding of the split-upload branch of `upload_file` (`upload.py`
lines 58-74), downstream of `split_video_by_size`: `splitPaths` are the
part files, `outcomes` the per-part `BunkrUploader.upload_file` results
in part order, `order` the completion order of the pool (the call at
line 62 passes `batch_size = 1`).  Returns the result dictionary and
the list of part files removed afterwards: when
`delete_split_video_after_upload` is configured, every part file is
removed (`os.remove` modelled as succeeding), whether or not its upload
produced a url. -/
def bunkrSplitBranch (cfgDeleteSplit : Bool) (splitPaths : List String)
    (outcomes : List (Option String)) (order : List Nat) :
    UploadResult × List String :=
  let urls := upload_files 1 outcomes order
  let r :=
    if !urls.isEmpty then
      { defaultResult with success := true, multiple := true, urls := urls }
    else defaultResult
  (r, if cfgDeleteSplit then splitPaths else [])

/-- Environment of the bunkr branch of `upload_file`: the constructed
uploader, the size of the file, and, for the (unreachable) dispatch
below line 56, the split parts, their upload outcomes, the pool
completion order, and the whole-file upload result. -/
structure BunkrEnv where
  uploader : BunkrUploaderState
  fileSize : Nat
  partPaths : List String
  partOutcomes : List (Option String)
  completionOrder : List Nat
  singleUrl : Option String
deriving Repr, DecidableEq

/-- Embedding of the bunkr branch of `upload_file` (`upload.py` lines
49-81).  After constructing the uploader (network calls in
`__init__`), line 56 reads `uploader.max_file_size`; since that
attribute does not exist, the branch raises `AttributeError`, the
handler at lines 85-87 records it, and neither `split_video_by_size`
nor any upload request ever runs.  The `some` arm translates lines
56-81 as they read and is reachable only if the attribute existed. -/
def bunkrBranch (cfgDeleteSplit : Bool) (path : String) (env : BunkrEnv) :
    UploadResult × List UAction :=
  match env.uploader.maxFileSizeAttr with
  | none =>
    ({ defaultResult with error := some "AttributeError" }, [.initNetwork])
  | some m =>
    if env.fileSize > m then
      let (r, removed) :=
        bunkrSplitBranch cfgDeleteSplit env.partPaths env.partOutcomes
          env.completionOrder
      (r, [.initNetwork, .splitRun path] ++ env.partPaths.map .uploadNetwork
        ++ removed.map .removeFile)
    else
      match env.singleUrl with
      | some u =>
        ({ defaultResult with success := true, url := some u },
          [.initNetwork, .uploadNetwork path])
      | none => (defaultResult, [.initNetwork, .uploadNetwork path])

/-- The jpg5 response as consumed by `upload.py` lines 32-37: whether
`status_code` is 500, whether the response dictionary is truthy, and
the nested `image.url` value. -/
structure Jpg5Resp where
  status500 : Bool
  nonEmpty : Bool
  imageUrl : Option String
deriving Repr, DecidableEq

/-- Environment of one `upload_file` call: each verified branch either
raises (`error`) or returns its response. -/
structure ServiceEnv where
  jpg5 : Except String Jpg5Resp
  gofile : Except String (Option String)
  bunkr : BunkrEnv

/-- Embedding of `upload_file` (`upload.py` lines 15-89).  Each of the
three known services first checks membership in `verified_uploaders`
and returns the untouched default result with no network activity when
absent (lines 30-31, 40-41, 50-51).  An unrecognized service name
raises `ValueError` (line 83), which the handler at lines 85-87 turns
into the default result with the `error` key set, again with no network
activity. -/
def upload_file (verified : List String) (cfgDeleteSplit : Bool)
    (service path : String) (env : ServiceEnv) :
    UploadResult × List UAction :=
  if service = "jpg5" then
    if !verified.contains "jpg5" then (defaultResult, [])
    else
      match env.jpg5 with
      | .error e => ({ defaultResult with error := some e }, [.uploadNetwork path])
      | .ok resp =>
        if resp.status500 then (defaultResult, [.uploadNetwork path])
        else if resp.nonEmpty then
          ({ defaultResult with success := true, url := resp.imageUrl },
            [.uploadNetwork path])
        else (defaultResult, [.uploadNetwork path])
  else if service = "gofile" then
    if !verified.contains "gofile" then (defaultResult, [])
    else
      match env.gofile with
      | .error e => ({ defaultResult with error := some e }, [.uploadNetwork path])
      | .ok (some dp) =>
        ({ defaultResult with success := true, url := some dp },
          [.uploadNetwork path])
      | .ok none => (defaultResult, [.uploadNetwork path])
  else if service = "bunkr" then
    if !verified.contains "bunkr" then (defaultResult, [])
    else bunkrBranch cfgDeleteSplit path env.bunkr
  else
    ({ defaultResult with error := some ("Unsupported upload service: " ++ service) },
      [])

/-- Pre-flight outcomes of `verify_uploaders` (`upload.py` lines
92-114): whether each capability check succeeds. -/
structure VerifyEnv where
  bunkrOk : Bool
  jpg5Ok : Bool
  gofileOk : Bool
deriving Repr, DecidableEq

/-- Embedding of `verify_uploaders`: the services whose pre-flight
check did not raise, in the append order of the source.  It is run once
at process start (`main.py` line 20) and the list is never mutated
afterwards. -/
def verify_uploaders (env : VerifyEnv) : List String :=
  (if env.bunkrOk then ["bunkr"] else [])
    ++ (if env.jpg5Ok then ["jpg5"] else [])
    ++ (if env.gofileOk then ["gofile"] else [])

end Upload

section Theorems

open Monitor Video Upload Cleanup

/-- C1: at most one capture session per creator: while `is_recording`
is true an iteration of the polling loop (not cancelled) only sleeps
one poll interval and re-checks, launching nothing and querying
nothing; and a `start_recording` call made while `is_recording` is true
returns immediately with the state unchanged and no process
launched. -/
theorem single_capture_per_creator :
    (∀ (s : MonitorState) (ev : PollEvent) (env : RecEnv),
      s.running = true → s.isRecording = true → ev ≠ PollEvent.cancelled →
      loopStep s ev env = (StepOutcome.looped s, [MAction.sleep]))
    ∧ (∀ (s : MonitorState) (env : RecEnv),
      s.isRecording = true → start_recording s env = ⟨s, false⟩) := by
  constructor
  · intro s ev env hrun hrec hev
    cases ev with
    | cancelled => exact absurd rfl hev
    | failure => simp [loopStep, hrun, hrec]
    | stream access url => simp [loopStep, hrun, hrec]
  · intro s env hrec
    simp [start_recording, hrec]

/-- Witness for `single_capture_per_creator` at a concrete recording
state. -/
theorem single_capture_per_creator_witness :
    loopStep ⟨true, true⟩ PollEvent.failure ⟨true⟩
      = (StepOutcome.looped ⟨true, true⟩, [MAction.sleep])
    ∧ start_recording ⟨true, true⟩ ⟨true⟩ = ⟨⟨true, true⟩, false⟩ :=
  ⟨single_capture_per_creator.1 ⟨true, true⟩ PollEvent.failure ⟨true⟩ rfl rfl
      (by decide),
    single_capture_per_creator.2 ⟨true, true⟩ ⟨true⟩ rfl⟩

/-- C8: the polling loop never terminates because of an exception in
its body: while `_running` is true every non-cancellation event leads
to another iteration; a generic exception leaves the state unchanged
and the loop continues; and the loop exits only when the termination
flag is false at the top of the iteration or the task is cancelled. -/
theorem monitor_loop_never_dies_on_exception :
    (∀ (s : MonitorState) (ev : PollEvent) (env : RecEnv),
      s.running = true → ev ≠ PollEvent.cancelled →
      ∃ s₂, (loopStep s ev env).1 = StepOutcome.looped s₂)
    ∧ (∀ (s : MonitorState) (env : RecEnv),
      s.running = true → (loopStep s PollEvent.failure env).1 = StepOutcome.looped s)
    ∧ (∀ (s : MonitorState) (ev : PollEvent) (env : RecEnv) (s₂ : MonitorState),
      (loopStep s ev env).1 = StepOutcome.exited s₂ →
      s.running = false ∨ ev = PollEvent.cancelled) := by
  refine ⟨?_, ?_, ?_⟩
  · intro s ev env hrun hev
    cases ev with
    | cancelled => exact absurd rfl hev
    | failure =>
      by_cases hrec : s.isRecording <;> exact ⟨s, by simp [loopStep, hrun, hrec]⟩
    | stream access url =>
      by_cases hrec : s.isRecording
      · exact ⟨s, by simp [loopStep, hrun, hrec]⟩
      · by_cases hl : access && url.isSome
        · exact ⟨(start_recording s env).state, by simp [loopStep, hrun, hrec, hl]⟩
        · exact ⟨s, by simp [loopStep, hrun, hrec, hl]⟩
  · intro s env hrun
    by_cases hrec : s.isRecording <;> simp [loopStep, hrun, hrec]
  · intro s ev env s₂ h
    by_cases hrun : s.running
    · right
      cases ev with
      | cancelled => rfl
      | failure =>
        exfalso
        by_cases hrec : s.isRecording <;> simp [loopStep, hrun, hrec] at h
      | stream access url =>
        exfalso
        by_cases hrec : s.isRecording
        · simp [loopStep, hrun, hrec] at h
        · by_cases hl : access && url.isSome <;>
            simp [loopStep, hrun, hrec, hl] at h
    · left
      simpa using hrun

/-- Witness for `monitor_loop_never_dies_on_exception` at concrete
states. -/
theorem monitor_loop_never_dies_on_exception_witness :
    (∃ s₂, (loopStep ⟨false, true⟩ PollEvent.failure ⟨true⟩).1
      = StepOutcome.looped s₂)
    ∧ (loopStep ⟨true, true⟩ PollEvent.failure ⟨true⟩).1
      = StepOutcome.looped ⟨true, true⟩
    ∧ ((⟨true, false⟩ : MonitorState).running = false
      ∨ PollEvent.failure = PollEvent.cancelled) :=
  ⟨monitor_loop_never_dies_on_exception.1 ⟨false, true⟩ PollEvent.failure ⟨true⟩
      rfl (by decide),
    monitor_loop_never_dies_on_exception.2.1 ⟨true, true⟩ ⟨true⟩ rfl,
    monitor_loop_never_dies_on_exception.2.2 ⟨true, false⟩ PollEvent.failure
      ⟨true⟩ ⟨true, false⟩ rfl⟩

/-- Success condition of one encoder run inside `compress_video`: the
input existed, nothing was raised, the encoder exited 0 and the output
file is present. -/
def compressSucceeds (env : CompressEnv) : Bool :=
  env.inputExists && !env.encoderRaises
    && (env.encoderExit == 0) && env.encoderCreatesOutput

/-- C9 counterexample: when the compressed output already exists at
entry, `compress_video` returns the compressed path although the
external encoder was never invoked in this call (so it did not exit
with code 0), refuting the claim's "returns the compressed file path
exactly when the external encoder exits with code 0 and the compressed
output file exists". -/
theorem compress_video_shortcut_counterexample :
    compress_video true "v.mp4" ⟨true, true, 1, false, false⟩
      = ⟨"v_compressed.mp4", false, false⟩ := by decide

/-- C9 amended: when the compressed output does not already exist at
entry, `compress_video` returns the compressed path exactly when the
encoder run succeeds (exit code 0 and output present, no exception),
deletes the original exactly then when `delete_original` is configured,
and on a missing input, nonzero exit, missing output or exception
returns the original path unchanged; it returns a value on every path,
so it never raises.  (When the compressed output already exists at
entry it is returned immediately, without running the encoder and
without deleting the original.) -/
theorem compress_video_characterization (del : Bool) (input : String)
    (env : CompressEnv) (h : env.compressedExists = false) :
    compress_video del input env =
      ⟨if compressSucceeds env then compressedPathOf input else input,
        env.inputExists,
        del && compressSucceeds env⟩ := by
  obtain ⟨ie, ce, ex, co, er⟩ := env
  simp only at h
  subst h
  cases ie <;> cases er <;> cases co <;>
    by_cases hex : ex = 0 <;>
    simp [compress_video, compressSucceeds, hex]

/-- Witness for `compress_video_characterization` on a successful
encoder run. -/
theorem compress_video_characterization_witness :
    compress_video true "v.mp4" ⟨true, false, 0, true, false⟩
      = ⟨if compressSucceeds ⟨true, false, 0, true, false⟩
          then compressedPathOf "v.mp4" else "v.mp4",
        true, true && compressSucceeds ⟨true, false, 0, true, false⟩⟩ :=
  compress_video_characterization true "v.mp4" ⟨true, false, 0, true, false⟩ rfl

/-- Configuration value used by the concrete retention scenarios:
thresholds as in the defaults of `config.py`. -/
def cfg0 : Config :=
  { output_directory := "recordings", users_to_monitor := ["alice"],
    check_interval := 60, generate_thumbnail := true, compress_videos := true,
    delete_original := true, delete_split_video_after_upload := true,
    upload_videos := true, remove_old_recordings := true,
    min_free_disk_space := 20, discord_enable := false,
    discord_channel_id := "", dev_mode := false }

/-- An old 15 GB recording sitting directly in the output directory. -/
def oldFile : Cleanup.Entry := ⟨[], "old.mp4", 1, 15 * gb⟩

/-- C2: with free space (10 GB) below the threshold (20 GB) and an old
unprotected 15 GB candidate whose deletion would cross the threshold,
the retention pass removes nothing and aborts: the loop's first
iteration reads the non-existent `CONFIG.protected_users` attribute,
the resulting `AttributeError` escapes to the outer handler, and no
file is ever deleted — the claimed oldest-first minimum-prefix deletion
never happens. -/
theorem retention_pass_deletes_nothing :
    Cleanup.check_disk_space_and_cleanup cfg0 true [oldFile] (10 * gb) 20
      = ⟨[], true⟩
    ∧ Cleanup.globCandidates [oldFile] = [oldFile]
    ∧ cfg0.protectedUsersAttr = none := by
  have hfree : (10 : ℚ) * (gb : ℚ) / gbQ < 20 := by
    norm_num [gb, gbQ]
  have hg : Cleanup.globCandidates [oldFile] = [oldFile] := by decide
  refine ⟨?_, hg, rfl⟩
  simp [Cleanup.check_disk_space_and_cleanup, hfree, hg,
    Cleanup.sortByCtime, Cleanup.insertByCtime, Cleanup.cleanupLoop,
    Config.protectedUsersAttr]

/-- A recording stored, as `UserMonitor.start_recording` always stores
them, in a per-creator subdirectory of the output directory. -/
def subdirFile : Cleanup.Entry := ⟨["alice"], "alice_20240101.mp4", 5, 15 * gb⟩

/-- C3: the candidate enumeration of `check_disk_space_and_cleanup`
uses the non-recursive `Path(output_dir).glob("*<ext>")`, so a
recording in a per-creator subdirectory is not a candidate even though
it carries a known video extension, and a below-threshold pass over a
directory holding only such recordings removes nothing (it finds no
candidates at all). -/
theorem subdirectory_recordings_never_evicted :
    Cleanup.globCandidates [subdirFile] = []
    ∧ strEndsWith subdirFile.name ".mp4" = true
    ∧ Cleanup.check_disk_space_and_cleanup cfg0 true [subdirFile] (10 * gb) 20
      = ⟨[], false⟩ := by
  have hfree : (10 : ℚ) * (gb : ℚ) / gbQ < 20 := by
    norm_num [gb, gbQ]
  have hg : Cleanup.globCandidates [subdirFile] = [] := by decide
  refine ⟨hg, by decide, ?_⟩
  simp [Cleanup.check_disk_space_and_cleanup, hfree, hg]

/-- C5: the size dispatch of the bunkr branch of `upload_file` is never
reached: reading the non-existent `uploader.max_file_size` attribute
raises `AttributeError` for every file, so neither a single whole-file
request nor a split upload ever happens — the branch performs the
uploader construction and then fails, for files below and above any
would-be ceiling alike. -/
theorem bunkr_size_dispatch_never_runs (del : Bool) (path : String)
    (env : BunkrEnv) :
    bunkrBranch del path env
      = ({ defaultResult with error := some "AttributeError" },
          [UAction.initNetwork]) := rfl

/-- Mapping each index of a list over its positions recovers the
list. -/
theorem getD_range_map {α : Type} (l : List α) (d : α) :
    (List.range l.length).map (fun i => l.getD i d) = l := by
  induction l with
  | nil => simp
  | cons a t ih =>
    rw [List.length_cons, List.range_succ_eq_map, List.map_cons, List.map_map]
    have hcomp : ((fun i => (a :: t).getD i d) ∘ Nat.succ)
        = fun i => t.getD i d := by
      funext i
      simp [List.getD_cons_succ]
    rw [List.getD_cons_zero, hcomp, ih]

/-- C4: for parts whose uploads yield urls u1..un, any completion order
the single-worker pool used by the split branch (`batch_size = 1` at
`upload.py` line 62) can produce leads `upload_files` to return the
urls in part-index order. -/
theorem split_upload_urls_in_index_order (urls : List String)
    (order : List Nat)
    (h : achievableOrder 1 (urls.map some).length order = true) :
    upload_files 1 (urls.map some) order = urls := by
  have horder : order = List.range (urls.map some).length := by
    simpa [achievableOrder] using h
  subst horder
  simp only [upload_files, uploadFilesCollect]
  rw [getD_range_map]
  simp [List.filterMap_map, Function.comp]

/-- Witness for `split_upload_urls_in_index_order` on three parts. -/
theorem split_upload_urls_in_index_order_witness :
    upload_files 1 (["u1", "u2", "u3"].map some) [0, 1, 2]
      = ["u1", "u2", "u3"] :=
  split_upload_urls_in_index_order ["u1", "u2", "u3"] [0, 1, 2] (by decide)

/-- C10: for a split upload (with the single-worker pool of the actual
call), the result reports success exactly when at least one part upload
yields a url, the url list is the per-part urls with failed parts
silently omitted (so it can be shorter than the part count), and when
`delete_split_video_after_upload` is configured every part file is
removed afterwards, failed parts included. -/
theorem split_upload_failed_parts_aggregation (del : Bool)
    (ps : List String) (outcomes : List (Option String)) (order : List Nat)
    (hlen : outcomes.length = ps.length)
    (h : achievableOrder 1 outcomes.length order = true) :
    ((bunkrSplitBranch del ps outcomes order).1.success
      = !(outcomes.filterMap id).isEmpty)
    ∧ (bunkrSplitBranch del ps outcomes order).1.urls = outcomes.filterMap id
    ∧ (bunkrSplitBranch del ps outcomes order).1.urls.length ≤ ps.length
    ∧ (bunkrSplitBranch del ps outcomes order).2 = (if del then ps else []) := by
  have horder : order = List.range outcomes.length := by
    simpa [achievableOrder] using h
  subst horder
  have hc : upload_files 1 outcomes (List.range outcomes.length)
      = outcomes.filterMap id := by
    simp only [upload_files, uploadFilesCollect]
    rw [getD_range_map]
  have hle : (outcomes.filterMap id).length ≤ ps.length := by
    calc (outcomes.filterMap id).length ≤ outcomes.length :=
          List.length_filterMap_le _ _
      _ = ps.length := hlen
  by_cases he : (outcomes.filterMap id).isEmpty
  · have hnil : outcomes.filterMap id = [] := by
      simpa [List.isEmpty_iff] using he
    simp [bunkrSplitBranch, hc, hnil, defaultResult]
  · refine ⟨?_, ?_, ?_, ?_⟩ <;>
      simp [bunkrSplitBranch, hc, he, defaultResult, hle]

/-- Witness for `split_upload_failed_parts_aggregation` with one
failed part out of two. -/
theorem split_upload_failed_parts_aggregation_witness :
    ((bunkrSplitBranch true ["p1", "p2"] [some "u1", none] [0, 1]).1.success
      = !(([some "u1", none].filterMap id)).isEmpty)
    ∧ (bunkrSplitBranch true ["p1", "p2"] [some "u1", none] [0, 1]).1.urls
      = [some "u1", none].filterMap id
    ∧ (bunkrSplitBranch true ["p1", "p2"] [some "u1", none] [0, 1]).1.urls.length
      ≤ ["p1", "p2"].length
    ∧ (bunkrSplitBranch true ["p1", "p2"] [some "u1", none] [0, 1]).2
      = (if true then ["p1", "p2"] else []) :=
  split_upload_failed_parts_aggregation true ["p1", "p2"]
    [some "u1", none] [0, 1] (by decide) (by decide)

/-- C6: an `upload_file` call for any service name absent from the
verified-uploaders list returns the untouched unsuccessful result
fields (success false, no url, multiple false, empty urls) and performs
no network action; the list is a parameter here, so this holds for
every upload attempt made with the set built once at startup. -/
theorem unverified_service_short_circuits (verified : List String)
    (del : Bool) (service path : String) (env : ServiceEnv)
    (h : verified.contains service = false) :
    ((upload_file verified del service path env).1.success = false)
    ∧ ((upload_file verified del service path env).1.url = none)
    ∧ ((upload_file verified del service path env).1.multiple = false)
    ∧ ((upload_file verified del service path env).1.urls = [])
    ∧ ((upload_file verified del service path env).2 = []) := by
  have h' : service ∉ verified := by simpa using h
  by_cases h1 : service = "jpg5"
  · subst h1
    simp [upload_file, h', defaultResult]
  · by_cases h2 : service = "gofile"
    · subst h2
      simp [upload_file, h', defaultResult]
    · by_cases h3 : service = "bunkr"
      · subst h3
        simp [upload_file, h', defaultResult]
      · simp [upload_file, h1, h2, h3, defaultResult]

/-- Concrete environment for the `unverified_service_short_circuits`
witness. -/
def env0 : ServiceEnv :=
  { jpg5 := .ok ⟨false, true, some "https://jpg"⟩,
    gofile := .ok (some "https://gofile"),
    bunkr :=
      { uploader := ⟨25000000, true, "https://node"⟩, fileSize := 1000,
        partPaths := [], partOutcomes := [], completionOrder := [],
        singleUrl := none } }

/-- Witness for `unverified_service_short_circuits`: gofile failed its
pre-flight check, so an upload attempt against it short-circuits. -/
theorem unverified_service_short_circuits_witness :
    ((upload_file ["bunkr"] true "gofile" "v.mp4" env0).1.success = false)
    ∧ ((upload_file ["bunkr"] true "gofile" "v.mp4" env0).1.url = none)
    ∧ ((upload_file ["bunkr"] true "gofile" "v.mp4" env0).1.multiple = false)
    ∧ ((upload_file ["bunkr"] true "gofile" "v.mp4" env0).1.urls = [])
    ∧ ((upload_file ["bunkr"] true "gofile" "v.mp4" env0).2 = []) :=
  unverified_service_short_circuits ["bunkr"] true "gofile" "v.mp4" env0
    (by decide)

/-- C7: when a first `split_video_by_size` call succeeded (so the
complete identically-named part set exists afterwards), a second call
on the same file with the same size limit returns the same ordered part
list, invokes the external splitter zero times, and leaves the file
system unchanged. -/
theorem split_reuses_existing_parts (fs : Video.SplitFS)
    (parent stem suffix : String) (maxGb : ℚ) (ps : List String)
    (h : (Video.split_video_by_size fs parent stem suffix maxGb).result
      = Except.ok ps) :
    Video.split_video_by_size
        (Video.split_video_by_size fs parent stem suffix maxGb).fs
        parent stem suffix maxGb
      = ⟨Except.ok ps, 0,
          (Video.split_video_by_size fs parent stem suffix maxGb).fs⟩ := by
  by_cases hin : (parent ++ "/" ++ stem ++ suffix) ∈ fs.files
  · by_cases hre :
      (parent ++ "/" ++ stem ++ "_chunks") ∈ fs.dirs
      ∧ ∀ p ∈ (List.range
            ⌈((fs.sizeOf (parent ++ "/" ++ stem ++ suffix) : ℚ) / gbQ) / maxGb⌉₊).map
          (fun i => (parent ++ "/" ++ stem ++ "_chunks") ++ "/"
            ++ Video.partName stem suffix i),
        p ∈ fs.files
    · have hfst : Video.split_video_by_size fs parent stem suffix maxGb
          = ⟨Except.ok ((List.range
              ⌈((fs.sizeOf (parent ++ "/" ++ stem ++ suffix) : ℚ) / gbQ) / maxGb⌉₊).map
              (fun i => (parent ++ "/" ++ stem ++ "_chunks") ++ "/"
                ++ Video.partName stem suffix i)), 0, fs⟩ := by
        simp only [Video.split_video_by_size]
        rw [if_neg (not_not_intro hin), if_pos hre]
      simp only [hfst, Except.ok.injEq] at h
      subst h
      simp [hfst]
    · have hfst : Video.split_video_by_size fs parent stem suffix maxGb
          = ⟨Except.ok ((List.range
              ⌈((fs.sizeOf (parent ++ "/" ++ stem ++ suffix) : ℚ) / gbQ) / maxGb⌉₊).map
              (fun i => (parent ++ "/" ++ stem ++ "_chunks") ++ "/"
                ++ Video.partName stem suffix i)),
              ⌈((fs.sizeOf (parent ++ "/" ++ stem ++ suffix) : ℚ) / gbQ) / maxGb⌉₊,
              { fs with
                  dirs := (parent ++ "/" ++ stem ++ "_chunks") :: fs.dirs,
                  files := ((List.range
                    ⌈((fs.sizeOf (parent ++ "/" ++ stem ++ suffix) : ℚ) / gbQ) / maxGb⌉₊).map
                    (fun i => (parent ++ "/" ++ stem ++ "_chunks") ++ "/"
                      ++ Video.partName stem suffix i)) ++ fs.files }⟩ := by
        simp only [Video.split_video_by_size]
        rw [if_neg (not_not_intro hin), if_neg hre]
      simp only [hfst, Except.ok.injEq] at h
      subst h
      simp only [hfst]
      simp only [Video.split_video_by_size]
      split_ifs with hA hB
      all_goals first
        | rfl
        | exact absurd (List.mem_append_right _ hin) hA
        | exact absurd
            ⟨List.mem_cons_self _ _, fun p hp => List.mem_append_left _ hp⟩ hB
  · have hfst : Video.split_video_by_size fs parent stem suffix maxGb
        = ⟨Except.error "FileNotFoundError", 0, fs⟩ := by
      simp only [Video.split_video_by_size]
      rw [if_pos hin]
    rw [hfst] at h
    exact absurd h (by simp)

/-- Concrete file system for the `split_reuses_existing_parts` witness:
one 1 GB video, no chunks yet. -/
def fs0 : Video.SplitFS :=
  { files := ["d/v.mp4"], dirs := [], sizeOf := fun _ => gb }

/-- Witness for `split_reuses_existing_parts`: after a first successful
split of the 1 GB video with a 1 GB limit, the second call reuses the
single existing part. -/
theorem split_reuses_existing_parts_witness :
    Video.split_video_by_size
        (Video.split_video_by_size fs0 "d" "v" ".mp4" 1).fs "d" "v" ".mp4" 1
      = ⟨Except.ok ["d/v_chunks/v_part1.mp4"], 0,
          (Video.split_video_by_size fs0 "d" "v" ".mp4" 1).fs⟩ :=
  split_reuses_existing_parts fs0 "d" "v" ".mp4" 1 ["d/v_chunks/v_part1.mp4"]
    (by
      have hA : (gb : ℚ) / gbQ = 1 := by
        norm_num [gb, gbQ]
      simp [Video.split_video_by_size, fs0, hA, Nat.ceil_one, Video.partName]
      rfl)

end Theorems

end FSR
